import Mathlib

/-!
Verification of the Xline server bootstrap/coordination layer
(`xline/src/server/xline_server.rs`): identity derivation, minimum-lease-TTL
computation, recovery ordering, startup error propagation, snapshot-allocator
selection and the shutdown trigger.

Conventions of the embedding:
* Rust strings and byte slices are `List Nat` (byte values).
* `u64` arithmetic is `Nat` with explicit reduction modulo `2 ^ 64`.
* `std::time::Duration` values are total nanosecond counts (`Nat`).
* Rust panics are `Except PanicReason` errors.
-/

namespace Xline

/-- `2 ^ 64`, the modulus of all `u64` arithmetic. -/
def U64_MOD : Nat := 18446744073709551616

/-- Reduce a `Nat` into `u64` range. -/
def wrap64 (n : Nat) : Nat := n % U64_MOD

/-- 64-bit left rotation of `x` (assumed `< 2 ^ 64`) by `n` bits, `0 < n < 64`. -/
def rotl64 (x n : Nat) : Nat := ((x <<< n) % U64_MOD) ||| (x >>> (64 - n))

/-- The four 64-bit words of SipHash internal state. -/
structure SipState where
  v0 : Nat
  v1 : Nat
  v2 : Nat
  v3 : Nat
deriving Repr, DecidableEq

/-- One SipRound, as in the SipHash reference (and Rust `core::hash::sip`). -/
def sipRound (s : SipState) : SipState :=
  let v0 := wrap64 (s.v0 + s.v1)
  let v1 := rotl64 s.v1 13
  let v1 := v1 ^^^ v0
  let v0 := rotl64 v0 32
  let v2 := wrap64 (s.v2 + s.v3)
  let v3 := rotl64 s.v3 16
  let v3 := v3 ^^^ v2
  let v0 := wrap64 (v0 + v3)
  let v3 := rotl64 v3 21
  let v3 := v3 ^^^ v0
  let v2 := wrap64 (v2 + v1)
  let v1 := rotl64 v1 17
  let v1 := v1 ^^^ v2
  let v2 := rotl64 v2 32
  ⟨v0, v1, v2, v3⟩

/-- `n` iterated SipRounds. -/
def sipRounds : Nat → SipState → SipState
  | 0, s => s
  | n + 1, s => sipRounds n (sipRound s)

/-- Absorb one 8-byte message word: `v3 ^= m`, `c` rounds, `v0 ^= m`. -/
def sipCompress (c : Nat) (s : SipState) (m : Nat) : SipState :=
  let s := { s with v3 := s.v3 ^^^ m }
  let s := sipRounds c s
  { s with v0 := s.v0 ^^^ m }

/-- Little-endian value of a byte list (least significant byte first). -/
def leVal : List Nat → Nat
  | [] => 0
  | b :: rest => b + 256 * leVal rest

/-- The `n` little-endian bytes of `x`. -/
def leBytes : Nat → Nat → List Nat
  | 0, _ => []
  | n + 1, x => x % 256 :: leBytes n (x / 256)

/-- Split a byte stream into full 8-byte little-endian words plus the tail
(fewer than 8 remaining bytes). -/
def splitBlocks : List Nat → List Nat × List Nat
  | b0 :: b1 :: b2 :: b3 :: b4 :: b5 :: b6 :: b7 :: rest =>
    let (ws, tail) := splitBlocks rest
    (leVal [b0, b1, b2, b3, b4, b5, b6, b7] :: ws, tail)
  | rest => ([], rest)

/-- SipHash-c-d over a byte stream with key `(k0, k1)`, following the
reference algorithm: absorb each 8-byte word with `c` rounds, absorb the
final word `(len mod 256) << 56 | tail`, xor `0xff` into `v2`, run `d`
rounds, and return `v0 ^ v1 ^ v2 ^ v3`. -/
def sipHash (c d k0 k1 : Nat) (msg : List Nat) : Nat :=
  let st : SipState :=
    ⟨k0 ^^^ 0x736f6d6570736575, k1 ^^^ 0x646f72616e646f6d,
     k0 ^^^ 0x6c7967656e657261, k1 ^^^ 0x7465646279746573⟩
  let (blocks, tail) := splitBlocks msg
  let st := blocks.foldl (sipCompress c) st
  let b := ((msg.length % 256) <<< 56) + leVal tail
  let st := sipCompress c st b
  let st := { st with v2 := st.v2 ^^^ 0xff }
  let st := sipRounds d st
  st.v0 ^^^ st.v1 ^^^ st.v2 ^^^ st.v3

/-- Rust `std::collections::hash_map::DefaultHasher`: SipHash-1-3 with the
zero key. Modelled here as the byte stream absorbed so far; raw `write`
calls concatenate onto the stream and `finish` hashes it (SipHash is a
streaming hash, so consecutive writes are equivalent to hashing the
concatenation). -/
structure DefaultHasher where
  absorbed : List Nat
deriving Repr, DecidableEq

namespace DefaultHasher

/-- `DefaultHasher::new()`. -/
def new : DefaultHasher := ⟨[]⟩

/-- `Hasher::write(&mut self, bytes)`: absorb raw bytes (no length prefix). -/
def write (h : DefaultHasher) (bytes : List Nat) : DefaultHasher :=
  ⟨h.absorbed ++ bytes⟩

/-- `Hasher::write_u64`: absorb the value's native-endian (little-endian on
the supported targets) 8 bytes. -/
def write_u64 (h : DefaultHasher) (x : Nat) : DefaultHasher :=
  h.write (leBytes 8 x)

/-- `Hasher::finish`: SipHash-1-3 of the absorbed stream with key (0, 0). -/
def finish (h : DefaultHasher) : Nat :=
  sipHash 1 3 0 0 h.absorbed

end DefaultHasher

/-! ## Identity derivation (`XlineServer::calc_member_id`, `calc_cluster_id`,
`construct_generator`) -/

/-- `calc_member_id(peer_url, cluster_name, now)`: hash the url bytes, the
cluster-name bytes, and the 8-byte timestamp with `DefaultHasher`. -/
def calc_member_id (peer_url cluster_name : List Nat) (now : Nat) : Nat :=
  (((DefaultHasher.new.write peer_url).write cluster_name).write_u64 now).finish

/-- `calc_cluster_id(member_urls, cluster_name)`: hash each member url in
iteration order, then the cluster-name bytes. -/
def calc_cluster_id (member_urls : List (List Nat)) (cluster_name : List Nat) : Nat :=
  ((member_urls.foldl DefaultHasher.write DefaultHasher.new).write cluster_name).finish

/-- The panics `xline_server.rs` can raise. -/
inductive PanicReason where
  /-- `panic!("peer {} not found in peers {:?}", ...)` -/
  | peerNotFound : PanicReason
  /-- `panic!("SystemTime before UNIX EPOCH! {e}")` -/
  | timeBeforeEpoch : PanicReason
  /-- the `unimplemented!()` arm of the storage-config match -/
  | unimplementedStorage : PanicReason
deriving Repr, DecidableEq

/-- `Bool` test for a non-panicking outcome. -/
def isOk {ε α : Type} : Except ε α → Bool
  | .ok _ => true
  | .error _ => false

/-- `XlineServer::construct_generator`: look the node's own name up in the
member map (panic if absent), read the clock (panic if before the epoch,
i.e. negative), then derive `(member_id, cluster_id)`. The member map is a
key/url association list in its iteration order; `clock` is the signed
offset of `SystemTime::now()` from the epoch in whole seconds. The cluster
name passed to both hashes is the empty string. -/
def construct_generator (name : List Nat) (all_members : List (List Nat × List Nat))
    (clock : Int) : Except PanicReason (Nat × Nat) :=
  match all_members.lookup name with
  | none => .error .peerNotFound
  | some url =>
    if clock < 0 then .error .timeBeforeEpoch
    else
      let ts := clock.toNat
      let member_id := calc_member_id url [] ts
      let peer_urls := all_members.map Prod.snd
      let cluster_id := calc_cluster_id peer_urls []
      .ok (member_id, cluster_id)

/-! ## Minimum lease TTL (`XlineServer::new`, lines 126-133) -/

/-- Nanoseconds per second. -/
def NANOS_PER_SEC : Nat := 1000000000

/-- The `Duration` value `3 * heartbeat_interval * candidate_timeout_ticks / 2`
in total nanoseconds: the multiplications are exact and the division by 2
truncates to whole nanoseconds (as Rust `Duration` division does). -/
def min_ttl_nanos (heartbeat_nanos ticks : Nat) : Nat :=
  3 * heartbeat_nanos * ticks / 2

/-- `min_ttl_secs`: `min_ttl.as_secs()` plus one when
`min_ttl.subsec_nanos() > 0` (the source's "safe ceiling"). -/
def min_ttl_secs (heartbeat_nanos ticks : Nat) : Nat :=
  min_ttl_nanos heartbeat_nanos ticks / NANOS_PER_SEC +
    (if min_ttl_nanos heartbeat_nanos ticks % NANOS_PER_SEC > 0 then 1 else 0)

/-! ## Server construction (`XlineServer::new`) and `init_servers` -/

/-- `utils::config::StorageConfig`.

Modelled from the spec: the storage-backend selector type lives outside
this file; the spec names the in-memory and persistent-engine (RocksDB)
backends, and the source's `match` carries a wildcard `unimplemented!()`
arm, so any further variant is represented abstractly by `other`. -/
inductive StorageConfig where
  | memory : StorageConfig
  | rocksDB (path : List Nat) : StorageConfig
  | other (tag : Nat) : StorageConfig
deriving Repr, DecidableEq

/-- The snapshot allocator chosen for the curp server. -/
inductive SnapshotAllocator where
  | memory : SnapshotAllocator
  | rocks : SnapshotAllocator
deriving Repr, DecidableEq

/-- The fields of `XlineServer` the verified claims depend on. Storage,
barrier and generator components are opaque handles (`Nat`), enough to
state that the same handle is passed in several places. -/
structure Server where
  id : List Nat
  is_leader : Bool
  all_members : List (List Nat × List Nat)
  storage_cfg : StorageConfig
  min_ttl : Nat
  member_id : Nat
  cluster_id : Nat
  kv_storage : Nat
  auth_storage : Nat
  lease_storage : Nat
  persistent : Nat
  index_barrier : Nat
  id_barrier : Nat
  header_gen_revision : Nat
  auth_revision : Nat
  curp_cfg : Nat
deriving Repr, DecidableEq

/-- The arguments of `CommandExecutor::new` inside `init_servers`. -/
structure CommandExecutorArgs where
  kv_storage : Nat
  auth_storage : Nat
  lease_storage : Nat
  persistent : Nat
  index_barrier : Nat
  id_barrier : Nat
  header_gen_revision : Nat
  auth_revision : Nat
deriving Repr, DecidableEq

/-- The arguments of `CurpServer::new` inside `init_servers`, in source
order. -/
structure CurpServerArgs where
  id : List Nat
  is_leader : Bool
  others : List (List Nat × List Nat)
  executor : CommandExecutorArgs
  allocator : SnapshotAllocator
  state_lease_storage : Nat
  curp_cfg : Nat
  tx_filter : Option Nat
deriving Repr, DecidableEq

/-- The `CommandExecutor::new(...)` call, identical in both match arms. -/
def Server.executorArgs (s : Server) : CommandExecutorArgs :=
  ⟨s.kv_storage, s.auth_storage, s.lease_storage, s.persistent,
   s.index_barrier, s.id_barrier, s.header_gen_revision, s.auth_revision⟩

/-- `XlineServer::init_servers`, restricted to what it computes for the
curp server: `others` is the member map minus the node itself, the node's
own address is looked up (panicking if absent), and the storage config
selects the curp server's snapshot allocator — `Memory` yields the memory
allocator, `RocksDB` the rocks allocator, anything else `unimplemented!()`. -/
def init_servers (s : Server) : Except PanicReason CurpServerArgs :=
  let others := s.all_members.filter fun p => s.id ≠ p.1
  match s.all_members.lookup s.id with
  | none => .error .peerNotFound
  | some _address =>
    match s.storage_cfg with
    | .memory =>
      .ok ⟨s.id, s.is_leader, others, s.executorArgs, .memory,
           s.lease_storage, s.curp_cfg, none⟩
    | .rocksDB _ =>
      .ok ⟨s.id, s.is_leader, others, s.executorArgs, .rocks,
           s.lease_storage, s.curp_cfg, none⟩
    | .other _ => .error .unimplementedStorage

/-- Every `CurpServer::new` argument except the snapshot allocator. -/
def sansAllocator (a : CurpServerArgs) :
    List Nat × Bool × List (List Nat × List Nat) × CommandExecutorArgs ×
      Nat × Nat × Option Nat :=
  (a.id, a.is_leader, a.others, a.executor, a.state_lease_storage,
   a.curp_cfg, a.tx_filter)

/-- `XlineServer::new`: derive the identity first (propagating its panics),
compute the minimum lease TTL, and assemble the server value. The
storage/barrier/generator components created inside `new` are opaque
handles numbered in creation order. -/
def XlineServer.new (name : List Nat) (all_members : List (List Nat × List Nat))
    (is_leader : Bool) (heartbeat_nanos ticks : Nat)
    (storage_config : StorageConfig) (clock : Int) : Except PanicReason Server :=
  match construct_generator name all_members clock with
  | .error r => .error r
  | .ok (member_id, cluster_id) =>
    .ok { id := name
          is_leader := is_leader
          all_members := all_members
          storage_cfg := storage_config
          min_ttl := min_ttl_secs heartbeat_nanos ticks
          member_id := member_id
          cluster_id := cluster_id
          kv_storage := 0
          auth_storage := 1
          lease_storage := 2
          persistent := 3
          index_barrier := 4
          id_barrier := 5
          header_gen_revision := 6
          auth_revision := 7
          curp_cfg := 8 }

/-! ## Startup (`XlineServer::start`, `start_from_listener_shutdown`) -/

/-- An abstract storage-recovery failure (`ExecuteError` in the source). -/
structure RecoverError where
  code : Nat
deriving Repr, DecidableEq

/-- The three recoverable storage engines. -/
inductive StoreKind where
  | lease : StoreKind
  | kv : StoreKind
  | auth : StoreKind
deriving Repr, DecidableEq

/-- The services added to the `tonic` server builder, in source order. -/
inductive Service where
  | lock : Service
  | kv : Service
  | lease : Service
  | auth : Service
  | watch : Service
  | maintenance : Service
  | curp : Service
deriving Repr, DecidableEq

/-- Observable startup events. `serve` is the final step that binds the
network listener and starts serving. -/
inductive StartEvent where
  | recover (store : StoreKind) : StartEvent
  | initServers : StartEvent
  | addService (svc : Service) : StartEvent
  | serve : StartEvent
deriving Repr, DecidableEq

/-- `XlineServer::start`, as the trace of events it performs together with
the error it returns, parameterized by the outcome of each storage
engine's `recover()`. Each `recover()?` appends its event and, on error,
returns that error at once; on full success the servers are initialized,
the seven services added in source order, and `serve` invoked. -/
def start (leaseR kvR authR : Except RecoverError Unit) :
    List StartEvent × Option RecoverError :=
  match leaseR with
  | .error e => ([.recover .lease], some e)
  | .ok _ =>
    match kvR with
    | .error e => ([.recover .lease, .recover .kv], some e)
    | .ok _ =>
      match authR with
      | .error e => ([.recover .lease, .recover .kv, .recover .auth], some e)
      | .ok _ =>
        ([.recover .lease, .recover .kv, .recover .auth, .initServers,
          .addService .lock, .addService .kv, .addService .lease,
          .addService .auth, .addService .watch, .addService .maintenance,
          .addService .curp, .serve], none)

/-- `XlineServer::start_from_listener_shutdown`: same body as `start` up to
the final call, which serves from the given listener with a shutdown
signal instead of binding an address. -/
def start_from_listener_shutdown (leaseR kvR authR : Except RecoverError Unit) :
    List StartEvent × Option RecoverError :=
  match leaseR with
  | .error e => ([.recover .lease], some e)
  | .ok _ =>
    match kvR with
    | .error e => ([.recover .lease, .recover .kv], some e)
    | .ok _ =>
      match authR with
      | .error e => ([.recover .lease, .recover .kv, .recover .auth], some e)
      | .ok _ =>
        ([.recover .lease, .recover .kv, .recover .auth, .initServers,
          .addService .lock, .addService .kv, .addService .lease,
          .addService .auth, .addService .watch, .addService .maintenance,
          .addService .curp, .serve], none)

/-! ## Shutdown trigger (`impl Drop for XlineServer`) -/

/-- `usize::MAX` on the 64-bit targets. -/
def USIZE_MAX : Nat := 18446744073709551615

/-- The operations available on a live `XlineServer` value in
`xline_server.rs` (everything except `drop`). -/
inductive ServerOp where
  | construct : ServerOp
  | startOp : ServerOp
  | startFromListenerOp : ServerOp
  | initServersOp : ServerOp
deriving Repr, DecidableEq

/-- The `Event::notify` calls each non-drop operation performs on the
shutdown trigger: none — no method in the file fires it. -/
def notifyCalls : ServerOp → List Nat := fun _ => []

/-- The `Event::notify` calls `Drop::drop` performs:
exactly one, with count `usize::MAX`. -/
def dropNotifyCalls : List Nat := [USIZE_MAX]

/-- The shutdown-trigger firings over a whole server lifecycle: any
sequence of live operations followed by the one `drop` Rust runs at
teardown. -/
def lifecycleNotifies (ops : List ServerOp) : List Nat :=
  (ops.map notifyCalls).flatten ++ dropNotifyCalls

/-- `event_listener::Event::notify(n)` wakes `min n k` of the `k`
currently registered listeners (the crate notifies at most `n` waiting
listeners). -/
def notifyWakes (n listeners : Nat) : Nat := min n listeners

/-! ## Shared concrete inputs -/

/-- The bytes of `"addr1"`. -/
def addr1 : List Nat := [97, 100, 100, 114, 49]

/-- The bytes of `"addr2"`. -/
def addr2 : List Nat := [97, 100, 100, 114, 50]

/-- The bytes of `"A"`. -/
def nameA : List Nat := [65]

/-- The bytes of `"B"`. -/
def nameB : List Nat := [66]

/-- The bytes of `"C"`. -/
def nameC : List Nat := [67]

/-- A concrete `Server` value with the scenario member map. -/
def sampleServer : Server :=
  { id := nameA
    is_leader := true
    all_members := [(nameA, addr1), (nameB, addr2)]
    storage_cfg := .memory
    min_ttl := 2
    member_id := 0
    cluster_id := 0
    kv_storage := 0
    auth_storage := 1
    lease_storage := 2
    persistent := 3
    index_barrier := 4
    id_barrier := 5
    header_gen_revision := 6
    auth_revision := 7
    curp_cfg := 8 }

/-! ## Helper lemmas -/

/-- The source's add-one-if-fractional step is the ceiling division of the
nanosecond count by `10 ^ 9`. -/
theorem min_ttl_secs_eq_ceil (h t : Nat) :
    min_ttl_secs h t = (min_ttl_nanos h t + (NANOS_PER_SEC - 1)) / NANOS_PER_SEC := by
  unfold min_ttl_secs NANOS_PER_SEC
  rcases Nat.eq_zero_or_pos (min_ttl_nanos h t % 1000000000) with h0 | h0 <;>
    simp [h0] <;> omega

/-- Folding `DefaultHasher.write` over a url list absorbs the in-order
concatenation of the urls. -/
theorem foldl_write_absorbed (u : List (List Nat)) (h : DefaultHasher) :
    (u.foldl DefaultHasher.write h).absorbed = h.absorbed ++ u.flatten := by
  induction u generalizing h with
  | nil => simp
  | cons x xs ih => simp [List.foldl, ih, DefaultHasher.write]

/-! ## Claim theorems -/

/-- C1 (counterexample): with heartbeat_interval = 666666667 ns and
candidate_timeout_ticks = 1, the computed minimum TTL is 1 second, yet the
exact value 3·h·t/2 = 1000000000.5 ns has whole-second ceiling 2, and
1 s < 1.5·h·t — the claimed ceiling-of-the-exact-value and the bound
min_ttl ≥ 1.5·h·t both fail. -/
theorem c1_counterexample :
    min_ttl_secs 666666667 1 = 1 ∧
    2 * NANOS_PER_SEC * min_ttl_secs 666666667 1 < 3 * 666666667 * 1 ∧
    (3 * 666666667 * 1 + (2 * NANOS_PER_SEC - 1)) / (2 * NANOS_PER_SEC) = 2 := by
  refine ⟨by decide, by decide, by decide⟩

/-- C1 (amended): the minimum lease TTL is the whole-second ceiling of the
nanosecond-truncated value ⌊3·h·t/2⌋ ns (so `min_ttl · 10⁹ ≥ ⌊3·h·t/2⌋`,
which can fall half a nanosecond short of the exact 1.5·h·t when 3·h·t is
odd), and the scenario h = 150 ms, t = 5 yields 2 seconds. -/
theorem c1_amended (h t : Nat) :
    min_ttl_secs h t = (min_ttl_nanos h t + (NANOS_PER_SEC - 1)) / NANOS_PER_SEC ∧
    min_ttl_nanos h t ≤ NANOS_PER_SEC * min_ttl_secs h t ∧
    min_ttl_secs 150000000 5 = 2 := by
  have hc := min_ttl_secs_eq_ceil h t
  refine ⟨hc, ?_, by decide⟩
  rw [hc]
  simp only [NANOS_PER_SEC]
  omega

/-- C2 (counterexample): the two-member scenario lists are permutations of
each other, yet `calc_cluster_id` maps them to different cluster ids: the
derived cluster id is not invariant under permutation of the member URLs. -/
theorem c2_counterexample :
    (([addr1, addr2] : List (List Nat)).Perm [addr2, addr1]) ∧
    calc_cluster_id [addr1, addr2] [] ≠ calc_cluster_id [addr2, addr1] [] :=
  ⟨List.Perm.swap addr2 addr1 [], by decide⟩

/-- C2 (amended): `calc_cluster_id` depends on the iteration order of the
member URLs; it is invariant exactly under reorderings that preserve the
in-order concatenation of the URL bytes (in particular under identical
iteration order), not under general permutations. -/
theorem c2_amended (u1 u2 : List (List Nat)) (cn : List Nat)
    (hflat : u1.flatten = u2.flatten) :
    calc_cluster_id u1 cn = calc_cluster_id u2 cn := by
  unfold calc_cluster_id
  simp [DefaultHasher.finish, DefaultHasher.write, foldl_write_absorbed, hflat]

/-- C2 (witness for the amended theorem): two url lists with equal
concatenations receive equal cluster ids. -/
theorem c2_amended_witness :
    ([[97, 98]] : List (List Nat)).flatten = ([[97], [98]] : List (List Nat)).flatten ∧
    calc_cluster_id [[97, 98]] [] = calc_cluster_id [[97], [98]] [] :=
  ⟨by decide, c2_amended [[97, 98]] [[97], [98]] [] (by decide)⟩

/-- Whether a startup event is one of the three recover calls. -/
def StartEvent.isRecover : StartEvent → Bool
  | .recover _ => true
  | _ => false

/-- The recovery-ordering property of a startup trace: each store is
recovered exactly once, lease strictly before kv strictly before auth, and
every non-recovery event (server construction, each service addition, and
`serve`, which binds the listener) comes strictly after the last recover. -/
def recover_order_ok (tr : List StartEvent) : Prop :=
  tr.count (.recover .lease) = 1 ∧ tr.count (.recover .kv) = 1 ∧
  tr.count (.recover .auth) = 1 ∧ tr.count .serve = 1 ∧
  tr.indexOf (.recover .lease) < tr.indexOf (.recover .kv) ∧
  tr.indexOf (.recover .kv) < tr.indexOf (.recover .auth) ∧
  ∀ e ∈ tr, e.isRecover = false → tr.indexOf (.recover .auth) < tr.indexOf e

/-- C3: in both `start` and `start_from_listener_shutdown`, the successful
startup trace recovers the lease store, then the kv store, then the auth
store, each exactly once, and all three recoveries complete before any
service is added and before `serve` binds the listener. -/
theorem c3_recovery_order :
    recover_order_ok (start (.ok ()) (.ok ()) (.ok ())).1 ∧
    recover_order_ok (start_from_listener_shutdown (.ok ()) (.ok ()) (.ok ())).1 := by
  unfold recover_order_ok
  decide

/-- C4: whichever of the three `recover()` calls fails first, both startup
functions stop at that call and return its error: the trace ends at the
failing recover, so no later recovery step runs, no servers are
constructed, no service is added, and the listener is never bound. -/
theorem c4_recover_error_aborts (e : RecoverError) (k a : Except RecoverError Unit) :
    start (.error e) k a = ([.recover .lease], some e) ∧
    start_from_listener_shutdown (.error e) k a = ([.recover .lease], some e) ∧
    start (.ok ()) (.error e) a = ([.recover .lease, .recover .kv], some e) ∧
    start_from_listener_shutdown (.ok ()) (.error e) a =
      ([.recover .lease, .recover .kv], some e) ∧
    start (.ok ()) (.ok ()) (.error e) =
      ([.recover .lease, .recover .kv, .recover .auth], some e) ∧
    start_from_listener_shutdown (.ok ()) (.ok ()) (.error e) =
      ([.recover .lease, .recover .kv, .recover .auth], some e) :=
  ⟨rfl, rfl, rfl, rfl, rfl, rfl⟩

/-- C5: under a normal clock, identity derivation succeeds exactly when the
member map contains the node's own name; it panics on every map that does
not. -/
theorem c5_identity_lookup (name : List Nat) (members : List (List Nat × List Nat))
    (clock : Int) (hclock : 0 ≤ clock) :
    isOk (construct_generator name members clock) = (members.lookup name).isSome := by
  unfold construct_generator
  cases h : members.lookup name with
  | none => simp [isOk]
  | some url => simp [isOk, if_neg (Int.not_lt.mpr hclock)]

/-- C5 (witness): with members {A ↦ addr1, B ↦ addr2}, derivation for node
name A succeeds and for node name C fails fatally. -/
theorem c5_identity_lookup_witness :
    isOk (construct_generator nameA [(nameA, addr1), (nameB, addr2)] 0) = true ∧
    isOk (construct_generator nameC [(nameA, addr1), (nameB, addr2)] 0) = false := by
  have h1 := c5_identity_lookup nameA [(nameA, addr1), (nameB, addr2)] 0 (by decide)
  have h2 := c5_identity_lookup nameC [(nameA, addr1), (nameB, addr2)] 0 (by decide)
  rw [h1, h2]
  exact ⟨by decide, by decide⟩

/-- C6 (counterexample): two member maps with identical contents (one is a
permutation of the other), the same node name and the same timestamp yield
different derived identities — the cluster id follows the map's iteration
order, so identity derivation is not a function of the map contents alone. -/
theorem c6_counterexample :
    (([(nameA, addr1), (nameB, addr2)] : List (List Nat × List Nat)).Perm
      [(nameB, addr2), (nameA, addr1)]) ∧
    (construct_generator nameA [(nameA, addr1), (nameB, addr2)] 0).toOption ≠
      (construct_generator nameA [(nameB, addr2), (nameA, addr1)] 0).toOption :=
  ⟨List.Perm.swap (nameB, addr2) (nameA, addr1) [], by decide⟩

/-- C6 (amended): identity derivation is deterministic given identical
inputs including the member map's iteration order (same name, same ordered
member list, same timestamp); the cluster id never depends on the
timestamp; and changing only the timestamp changes the member id at the
scenario input (as a 64-bit hash it is not injective, so inequality for
every timestamp pair is not guaranteed). -/
theorem c6_amended (name : List Nat) (m1 m2 : List (List Nat × List Nat))
    (c1 c2 : Int) (hm : m1 = m2) (hc1 : 0 ≤ c1) (hc2 : 0 ≤ c2) :
    (c1 = c2 → construct_generator name m1 c1 = construct_generator name m2 c2) ∧
    (construct_generator name m1 c1).toOption.map Prod.snd =
      (construct_generator name m2 c2).toOption.map Prod.snd ∧
    calc_member_id addr1 [] 0 ≠ calc_member_id addr1 [] 1 := by
  subst hm
  refine ⟨fun hc => by rw [hc], ?_, by decide⟩
  unfold construct_generator
  cases h : m1.lookup name with
  | none => rfl
  | some url =>
    simp [if_neg (Int.not_lt.mpr hc1), if_neg (Int.not_lt.mpr hc2), Except.toOption]

/-- C6 (witness for the amended theorem): at the scenario inputs, the
cluster-id component is unchanged between timestamps 0 and 1, while the
member ids at those timestamps differ. -/
theorem c6_amended_witness :
    (construct_generator nameA [(nameA, addr1), (nameB, addr2)] 0).toOption.map Prod.snd =
      (construct_generator nameA [(nameA, addr1), (nameB, addr2)] 1).toOption.map Prod.snd ∧
    calc_member_id addr1 [] 0 ≠ calc_member_id addr1 [] 1 := by
  have h := c6_amended nameA [(nameA, addr1), (nameB, addr2)]
    [(nameA, addr1), (nameB, addr2)] 0 1 rfl (by decide) (by decide)
  exact ⟨h.2.1, h.2.2⟩

/-- C7: over any server lifecycle — any sequence of live operations
followed by the one `drop` Rust runs at teardown — the shutdown trigger is
fired exactly once, by `drop`, with notification count `usize::MAX`, and
that single firing wakes every one of the registered listeners (whose
number, as a `usize`, is at most `usize::MAX`). -/
theorem c7_shutdown_once (ops : List ServerOp) (listeners : Nat)
    (hl : listeners ≤ USIZE_MAX) :
    lifecycleNotifies ops = [USIZE_MAX] ∧
    notifyWakes USIZE_MAX listeners = listeners := by
  constructor
  · unfold lifecycleNotifies dropNotifyCalls notifyCalls
    simp
  · exact Nat.min_eq_right hl

/-- C7 (witness): a lifecycle running `start` and then dropping fires the
trigger once with count `usize::MAX`, waking all of 3 listeners. -/
theorem c7_shutdown_once_witness :
    lifecycleNotifies [ServerOp.startOp] = [USIZE_MAX] ∧
    notifyWakes USIZE_MAX 3 = 3 :=
  c7_shutdown_once [ServerOp.startOp] 3 (by decide)

/-- C8: for a server whose own name resolves in the member map, the curp
server's snapshot allocator is selected solely by the storage backend:
`Memory` yields the memory allocator, `RocksDB` the rocks allocator, and
every other `CurpServer::new` argument is identical in the two branches. -/
theorem c8_snapshot_allocator (s : Server) (p addr : List Nat)
    (haddr : s.all_members.lookup s.id = some addr) :
    ∃ am ar : CurpServerArgs,
      init_servers { s with storage_cfg := .memory } = .ok am ∧
      init_servers { s with storage_cfg := .rocksDB p } = .ok ar ∧
      am.allocator = .memory ∧ ar.allocator = .rocks ∧
      sansAllocator am = sansAllocator ar := by
  refine ⟨⟨s.id, s.is_leader, s.all_members.filter fun q => s.id ≠ q.1,
      s.executorArgs, .memory, s.lease_storage, s.curp_cfg, none⟩,
    ⟨s.id, s.is_leader, s.all_members.filter fun q => s.id ≠ q.1,
      s.executorArgs, .rocks, s.lease_storage, s.curp_cfg, none⟩,
    ?_, ?_, rfl, rfl, rfl⟩ <;>
    · unfold init_servers
      simp [haddr, Server.executorArgs]

/-- C8 (witness): the allocator choice at the concrete sample server. -/
theorem c8_snapshot_allocator_witness :
    ∃ am ar : CurpServerArgs,
      init_servers { sampleServer with storage_cfg := .memory } = .ok am ∧
      init_servers { sampleServer with storage_cfg := .rocksDB [] } = .ok ar ∧
      am.allocator = .memory ∧ ar.allocator = .rocks ∧
      sansAllocator am = sansAllocator ar :=
  c8_snapshot_allocator sampleServer [] addr1 (by decide)

/-- C9: for a server whose own name resolves in the member map, a storage
configuration that is neither `Memory` nor `RocksDB` makes `init_servers`
(and therefore `start`) panic through `unimplemented!()`, while under the
precondition that the configuration is `Memory` or `RocksDB` that panic
branch is unreachable and `init_servers` succeeds. -/
theorem c9_unimplemented_storage (s : Server) (addr : List Nat)
    (haddr : s.all_members.lookup s.id = some addr) :
    (∀ tag, s.storage_cfg = .other tag →
      init_servers s = .error .unimplementedStorage) ∧
    ((s.storage_cfg = .memory ∨ ∃ p, s.storage_cfg = .rocksDB p) →
      isOk (init_servers s) = true) := by
  constructor
  · intro tag htag
    unfold init_servers
    simp [haddr, htag]
  · rintro (hmem | ⟨p, hp⟩) <;>
      · unfold init_servers
        first
        | simp [haddr, hmem, isOk]
        | simp [haddr, hp, isOk]

/-- C9 (witness): the sample server panics with an unrecognized backend and
succeeds with the memory backend. -/
theorem c9_unimplemented_storage_witness :
    init_servers { sampleServer with storage_cfg := .other 0 } =
      .error .unimplementedStorage ∧
    isOk (init_servers sampleServer) = true :=
  ⟨(c9_unimplemented_storage { sampleServer with storage_cfg := .other 0 }
      addr1 (by decide)).1 0 rfl,
   (c9_unimplemented_storage sampleServer addr1 (by decide)).2 (Or.inl rfl)⟩

/-- C10: whenever the system clock reports a time earlier than the UNIX
epoch (a negative offset), `XlineServer::new` panics during identity
derivation, for every name, member map and configuration. -/
theorem c10_clock_before_epoch (name : List Nat)
    (members : List (List Nat × List Nat)) (is_leader : Bool)
    (heartbeat_nanos ticks : Nat) (cfg : StorageConfig) (clock : Int)
    (hclock : clock < 0) :
    isOk (XlineServer.new name members is_leader heartbeat_nanos ticks cfg clock) =
      false := by
  unfold XlineServer.new construct_generator
  cases members.lookup name with
  | none => rfl
  | some url => simp [if_pos hclock, isOk]

/-- C10 (witness): a clock one second before the epoch makes construction
panic at the scenario inputs. -/
theorem c10_clock_before_epoch_witness :
    isOk (XlineServer.new nameA [(nameA, addr1), (nameB, addr2)] true
      150000000 5 .memory (-1)) = false :=
  c10_clock_before_epoch nameA [(nameA, addr1), (nameB, addr2)] true
    150000000 5 .memory (-1) (by decide)

end Xline
